import Mathlib

/-!
Verification development for a Telegram mental-health companion bot
(single source file `app.py`).  The core under study is the model-failover
orchestration engine: per-backend failure/cooldown tracking, ordered
trial-and-fallback dispatch over a backend priority list, the free-model
catalog refresh, the crisis detector, the bounded per-user history, the
stress rater, and the message handler.

Timestamps (`time.time()`) are modelled as natural numbers; HTTP traffic is
modelled by an oracle assigning each backend an outcome; the mutable global
dictionaries (`_model_state`, `chat_sessions`) become explicitly threaded
maps.
-/

/-- Per-backend failure state: mirrors the dict
`{"fails": int, "skip_until": float}` kept in `_model_state`. -/
structure ModelState where
  fails : Nat
  skip_until : Nat
deriving DecidableEq

/-- The `_model_state` dictionary: a backend id is absent (`none`) until its
first recorded failure. -/
def ModelMap : Type := String → Option ModelState

/-- Dictionary update at one key. -/
def updState (st : ModelMap) (m : String) (s : ModelState) : ModelMap :=
  fun m' => if m' = m then some s else st m'

/-- Recorded failure count of a backend (0 when the backend has no entry). -/
def failCount (st : ModelMap) (m : String) : Nat :=
  match st m with
  | none => 0
  | some s => s.fails

/-- Default of env `MODEL_FAILURE_THRESHOLD`. -/
def MODEL_FAILURE_THRESHOLD : Nat := 2

/-- Default of env `MODEL_COOLDOWN_SECONDS`. -/
def MODEL_COOLDOWN_SECONDS : Nat := 60

/-- Source `_mark_model_failed`, parameterised by the threshold `T`, the cooldown
duration `D` and the current time `now`: increment the failure counter
(creating the entry on first failure) and, once the counter reaches `T`,
set `skip_until = now + D`. -/
def _mark_model_failed (T D now : Nat) (m : String) (st : ModelMap) : ModelMap :=
  let s := (st m).getD ⟨0, 0⟩
  let fails := s.fails + 1
  if T ≤ fails then updState st m ⟨fails, now + D⟩
  else updState st m ⟨fails, s.skip_until⟩

/-- Source `_is_model_available`: returns the availability verdict and the updated
`_model_state` (the check itself zeroes the entry whenever
`now ≥ skip_until`). -/
def _is_model_available (now : Nat) (m : String) (st : ModelMap) :
    Bool × ModelMap :=
  match st m with
  | none => (true, st)
  | some s =>
    if s.skip_until ≤ now then (true, updState st m ⟨0, 0⟩)
    else (false, st)

/-- Pure availability verdict (the first component of `_is_model_available`). -/
def isAvail (now : Nat) (st : ModelMap) (m : String) : Bool :=
  match st m with
  | none => true
  | some s => s.skip_until ≤ now

/-- Python's `str.strip()` on the character list of a string: drop
whitespace from both ends. -/
def pyStripList (l : List Char) : List Char :=
  ((l.dropWhile Char.isWhitespace).reverse.dropWhile Char.isWhitespace).reverse

/-- Python's `str.strip()` as a string-to-string map. -/
def pyStrip (s : String) : String :=
  String.mk (pyStripList s.data)

/-- Outcome of one HTTP POST to the chat-completion endpoint for a given
backend: a status code with the reply content extracted from the JSON body
(the empty string when absent), or a transport exception. -/
inductive Outcome where
  | http (status : Nat) (content : String)
  | exc
deriving DecidableEq

/-- Result of one dispatch run of `_openrouter_chat_sync`: the returned
content, the fatal auth `RuntimeError`, or the final exhaustion
`RuntimeError` carrying the number of attempted backends. -/
inductive DispatchResult where
  | success (content : String)
  | authError
  | exhausted (tried : Nat)
deriving DecidableEq

/-- The status codes the dispatcher skips safely:
`[404, 410, 429, 500, 502, 503, 504]`. -/
def TRANSIENT_STATUSES : List Nat := [404, 410, 429, 500, 502, 503, 504]

/-- An outcome the dispatcher treats as a per-backend failure (mark failed,
continue): anything that is neither a 200 response with non-empty stripped
content nor a 401/403 auth error. -/
def isTransient : Outcome → Bool
  | Outcome.exc => true
  | Outcome.http status content =>
    decide (¬(status = 200 ∧ pyStripList content.data ≠ []) ∧
            status ≠ 401 ∧ status ≠ 403)

/-- The backend loop of `_openrouter_chat_sync`: walk the priority list,
skip unavailable backends, classify each attempted backend's outcome
exactly as the source does, threading `_model_state` and the `tried`
counter. -/
def dispatchGo (T D now : Nat) (oracle : String → Outcome) :
    List String → ModelMap → Nat → DispatchResult × ModelMap
  | [], st, tried => (DispatchResult.exhausted tried, st)
  | model :: rest, st, tried =>
    if (_is_model_available now model st).fst then
      match oracle model with
      | Outcome.http status content =>
        if status = 200 ∧ pyStripList content.data ≠ [] then
          (DispatchResult.success content,
           if ((_is_model_available now model st).snd model).isSome then
             updState (_is_model_available now model st).snd model ⟨0, 0⟩
           else (_is_model_available now model st).snd)
        else if status ∈ TRANSIENT_STATUSES then
          dispatchGo T D now oracle rest
            (_mark_model_failed T D now model (_is_model_available now model st).snd)
            (tried + 1)
        else if status = 401 ∨ status = 403 then
          (DispatchResult.authError, (_is_model_available now model st).snd)
        else
          dispatchGo T D now oracle rest
            (_mark_model_failed T D now model (_is_model_available now model st).snd)
            (tried + 1)
      | Outcome.exc =>
        dispatchGo T D now oracle rest
          (_mark_model_failed T D now model (_is_model_available now model st).snd)
          (tried + 1)
    else
      dispatchGo T D now oracle rest (_is_model_available now model st).snd tried

/-- Source `_openrouter_chat_sync`: one dispatch run over the priority list,
starting with `tried = 0`. -/
def _openrouter_chat_sync (T D now : Nat) (oracle : String → Outcome)
    (priority : List String) (st : ModelMap) : DispatchResult × ModelMap :=
  dispatchGo T D now oracle priority st 0

/-- The fixed crisis keyword list `CRISIS_KEYWORDS`. -/
def CRISIS_KEYWORDS : List String :=
  ["wanna die", "want to die", "kill myself", "end my life",
   "suicide", "suicidal", "self harm", "self-harm", "no reason to live",
   "can\x27t go on", "cant go on", "better off dead", "end it all",
   "don\x27t want to live", "dont want to live", "harm myself"]

/-- Python's `str.lower()` on the character list of a string. -/
def pyLowerList (l : List Char) : List Char :=
  l.map Char.toLower

/-- Source `is_crisis`: does the lower-cased text contain any crisis keyword? -/
def is_crisis (text : String) : Bool :=
  CRISIS_KEYWORDS.any
    (fun kw => decide (List.IsInfix kw.data (pyLowerList text.data)))

/-- Source constant `HISTORY_PAIRS_TO_KEEP = 12`. -/
def HISTORY_PAIRS_TO_KEEP : Nat := 12

/-- One stored chat message (`{"role": ..., "content": ...}`). -/
structure ChatMessage where
  role : String
  content : String
deriving DecidableEq

/-- Source `_trim_history`: keep at most `HISTORY_PAIRS_TO_KEEP * 2` messages,
dropping the oldest (`history[-max_msgs:]`). -/
def _trim_history (history : List ChatMessage) : List ChatMessage :=
  let maxMsgs := HISTORY_PAIRS_TO_KEEP * 2
  if history.length ≤ maxMsgs then history
  else history.drop (history.length - maxMsgs)

/-- One handler step on a stored history: append a message, then trim
(as `handle_message` does around each dispatch). -/
def appendAndTrim (history : List ChatMessage) (m : ChatMessage) :
    List ChatMessage :=
  _trim_history (history ++ [m])

/-- Source `get_stress_level`, with the dispatch outcome of its rating call made
explicit: `Except.error e` models `openrouter_chat` raising, `Except.ok txt`
models it returning `txt`.  Mirrors the source: strip, look at the first
character, accept a digit in 1..5, default to 1 everywhere else (the
`except` clause swallows the dispatch error). -/
def get_stress_level (outcome : Except String String) : Nat :=
  match outcome with
  | Except.error _ => 1
  | Except.ok txt =>
    match pyStripList txt.data with
    | [] => 1
    | c :: _ =>
      if c.isDigit then
        let level := c.toNat - 48
        if 1 ≤ level ∧ level ≤ 5 then level else 1
      else 1

/-- One entry of the `/models` listing: an id plus the
`pricing.prompt` / `pricing.completion` strings (`none` when the field is
absent). -/
structure ModelEntry where
  id : String
  pricingPrompt : Option String
  pricingCompletion : Option String
deriving DecidableEq

/-- A model is free iff both advertised prices are the literal "0". -/
def isFreeModel (m : ModelEntry) : Bool :=
  m.pricingPrompt == some ("0") && m.pricingCompletion == some ("0")

/-- The ids of the free models of a listing, in listing order. -/
def freeIds (data : List ModelEntry) : List String :=
  (data.filter isFreeModel).map (fun m => m.id)

/-- The designated default backend / auto-router id. -/
def OPENROUTER_DEFAULT : String := "openrouter/free"

/-- The hard-coded fallback catalog returned when the listing request fails. -/
def FALLBACK_MODELS : List String :=
  ["openrouter/free", "liquid/lfm-2.5-1.2b-instruct:free",
   "google/gemma-3-27b-it:free"]

/-- Source `fetch_free_models`, with the HTTP response made explicit: `none` models
a transport exception, `some (status, data)` a response.  On 200, filter the
free models, then force the default id to the front (`remove` drops only the
first occurrence, as Python's `list.remove` does); otherwise return the
fallback list. -/
def fetch_free_models (response : Option (Nat × List ModelEntry)) :
    List String :=
  match response with
  | some (status, data) =>
    if status = 200 then
      let free := freeIds data
      if OPENROUTER_DEFAULT ∈ free then
        OPENROUTER_DEFAULT :: free.erase OPENROUTER_DEFAULT
      else
        OPENROUTER_DEFAULT :: free
    else FALLBACK_MODELS
  | none => FALLBACK_MODELS

/-- Source dict `chat_sessions`: user id → stored history (absent until first message). -/
def Sessions : Type := Nat → Option (List ChatMessage)

/-- Store update at one user key (`some h` stores, `none` pops). -/
def setSession (s : Sessions) (u : Nat) (v : Option (List ChatMessage)) :
    Sessions :=
  fun u' => if u' = u then v else s u'

/-- One outbound Telegram reply: its text and whether the breathing-exercise
keyboard (the escalation action) is attached. -/
structure BotReply where
  text : String
  keyboard : Bool
deriving DecidableEq

/-- The observable effect of one `handle_message` call: the session store
afterwards, the replies sent, and how many backend dispatch runs were
issued. -/
structure HandleResult where
  sessions : Sessions
  replies : List BotReply
  dispatchRuns : Nat

/-- Reply sent when `OPENROUTER_API_KEY` is missing. -/
def KEY_MISSING_REPLY : String := "❌ OPENROUTER_API_KEY missing from .env"

/-- The fixed crisis escalation reply. -/
def CRISIS_REPLY : String :=
  "💚 I hear you, and I\x27m really glad you reached out.\n\nWhat you\x27re feeling right now is serious, and you deserve real support. Please reach out to a crisis helpline immediately:\n\n🇮🇳 *iCall (India):* 9152987821\n🌍 *Crisis Text Line:* Text HOME to 741741\n\nYou are not alone. 💚"

/-- The generic recoverable-error reply of the outer `except` clause. -/
def GENERIC_ERROR_REPLY : String :=
  "Sorry, something went wrong. Try /clear and send your message again."

/-- The safe default reply substituted for an empty generated reply. -/
def FALLBACK_REPLY : String := "I\x27m here for you. Could you share more?"

/-- Source `handle_message`, with the two dispatch outcomes made explicit:
`ratingCall` is what `openrouter_chat` does inside `get_stress_level`,
`replyCall` what it does for the conversational reply (`Except.error e`
models a raised exception with text `e`).  Mirrors the source's order:
API-key guard, session creation, crisis short-circuit, user-turn
append+trim+store, concurrent fan-out, then either the outer exception
handler (pop session, generic reply) or assistant-turn append+trim+store
and the escalation decision `stress_level >= 3`. -/
def handle_message (hasKey : Bool) (sessions : Sessions) (user : Nat)
    (text : String) (ratingCall replyCall : Except String String) :
    HandleResult :=
  if hasKey = false then
    ⟨sessions, [⟨KEY_MISSING_REPLY, false⟩], 0⟩
  else
    let sessions1 :=
      if (sessions user).isNone then setSession sessions user (some []) else sessions
    if is_crisis text then
      ⟨sessions1, [⟨CRISIS_REPLY, true⟩], 0⟩
    else
      let history := (sessions1 user).getD []
      let history1 := _trim_history (history ++ [⟨"user", text⟩])
      let sessions2 := setSession sessions1 user (some history1)
      match replyCall with
      | Except.error _ =>
        ⟨setSession sessions2 user none, [⟨GENERIC_ERROR_REPLY, false⟩], 2⟩
      | Except.ok r =>
        let stress := get_stress_level ratingCall
        let reply := if pyStripList r.data = [] then FALLBACK_REPLY else pyStrip r
        let history2 := _trim_history (history1 ++ [⟨"assistant", reply⟩])
        ⟨setSession sessions2 user (some history2),
         [⟨reply, decide (3 ≤ stress)⟩], 2⟩

/-- The empty `_model_state` at process start. -/
def emptyModelMap : ModelMap := fun _ => none

/-- Oracle for the end-to-end scenario of §8: backends #1 and #2 answer with
a rate-limit response, backend #3 with a valid non-empty reply whose
extracted content is "hello". -/
def scenarioOracle : String → Outcome := fun m =>
  if m = "m3" then Outcome.http 200 ("hello") else Outcome.http 429 ("")

/-- The three configured backends of the end-to-end scenario. -/
def scenarioModels : List String := ["m1", "m2", "m3"]

/-- State of `_model_state` after the first scenario dispatch run (at time 1000). -/
def scenState1 : ModelMap :=
  (_openrouter_chat_sync MODEL_FAILURE_THRESHOLD MODEL_COOLDOWN_SECONDS 1000
    scenarioOracle scenarioModels emptyModelMap).snd

/-- State of `_model_state` after repeating the scenario (second run at time 1001,
the `T`-th run for `T = MODEL_FAILURE_THRESHOLD = 2`). -/
def scenState2 : ModelMap :=
  (_openrouter_chat_sync MODEL_FAILURE_THRESHOLD MODEL_COOLDOWN_SECONDS 1001
    scenarioOracle scenarioModels scenState1).snd

/-- A tracker state one failure short of the threshold for backend "m1". -/
def wSt : ModelMap := fun m => if m = "m1" then some ⟨1, 0⟩ else none

/-- A tracker state in which backend "a" is cooling until time 100. -/
def wAuthSt : ModelMap := fun m => if m = "a" then some ⟨2, 100⟩ else none

/-- A list of `2K + 1` messages to feed the trimming scenario. -/
def wMsgs : List ChatMessage := List.replicate 25 ⟨"user", "m"⟩

/-- A free listing entry whose id is the designated default. -/
def dupEntry : ModelEntry := ⟨"openrouter/free", some ("0"), some ("0")⟩

theorem updState_self (st : ModelMap) (m : String) (s : ModelState) :
    updState st m s m = some s := by
  simp [updState]

theorem updState_other (st : ModelMap) (m : String) (s : ModelState)
    (m' : String) (h : m' ≠ m) : updState st m s m' = st m' := by
  simp [updState, h]

theorem avail_fst (now : Nat) (m : String) (st : ModelMap) :
    (_is_model_available now m st).fst = isAvail now st m := by
  unfold _is_model_available isAvail
  cases st m with
  | none => rfl
  | some s => by_cases hc : s.skip_until ≤ now <;> simp [hc]

theorem avail_snd_false (now : Nat) (m : String) (st : ModelMap)
    (h : isAvail now st m = false) : (_is_model_available now m st).snd = st := by
  unfold _is_model_available
  unfold isAvail at h
  cases hst : st m with
  | none => rfl
  | some s =>
    rw [hst] at h
    simp only [decide_eq_false_iff_not] at h
    simp [h]

theorem avail_snd_other (now : Nat) (m : String) (st : ModelMap)
    (m' : String) (h : m' ≠ m) :
    (_is_model_available now m st).snd m' = st m' := by
  unfold _is_model_available
  cases st m with
  | none => rfl
  | some s =>
    by_cases hc : s.skip_until ≤ now <;> simp [hc, updState_other, h]

theorem avail_snd_failCount (now : Nat) (m : String) (st : ModelMap)
    (h : isAvail now st m = true) :
    failCount (_is_model_available now m st).snd m = 0 := by
  unfold _is_model_available
  unfold isAvail at h
  cases hst : st m with
  | none => simp [failCount, hst]
  | some s =>
    rw [hst] at h
    simp only [decide_eq_true_eq] at h
    simp [h, failCount, updState_self]

theorem mark_other (T D now : Nat) (m : String) (st : ModelMap)
    (m' : String) (h : m' ≠ m) :
    _mark_model_failed T D now m st m' = st m' := by
  unfold _mark_model_failed
  split <;> simp [updState_other, h]

theorem mark_avail_self (T D now : Nat) (m : String) (st : ModelMap)
    (h : isAvail now st m = true) :
    _mark_model_failed T D now m (_is_model_available now m st).snd m
      = some ⟨1, if T ≤ 1 then now + D else 0⟩ := by
  unfold isAvail at h
  cases hst : st m with
  | none =>
    have hsnd : (_is_model_available now m st).snd = st := by
      unfold _is_model_available; rw [hst]
    rw [hsnd]
    unfold _mark_model_failed
    rw [hst]
    by_cases hT : T ≤ 1 <;> simp [hT, updState_self]
  | some s =>
    rw [hst] at h
    simp only [decide_eq_true_eq] at h
    have hsnd : (_is_model_available now m st).snd = updState st m ⟨0, 0⟩ := by
      unfold _is_model_available; rw [hst]; simp [h]
    rw [hsnd]
    unfold _mark_model_failed
    rw [updState_self]
    by_cases hT : T ≤ 1 <;> simp [hT, updState_self]

theorem dispatchGo_cons_unavail (T D now : Nat) (oracle : String → Outcome)
    (model : String) (rest : List String) (st : ModelMap) (tried : Nat)
    (hav : isAvail now st model = false) :
    dispatchGo T D now oracle (model :: rest) st tried
      = dispatchGo T D now oracle rest st tried := by
  have hsnd := avail_snd_false now model st hav
  simp [dispatchGo, avail_fst, hav, hsnd]

theorem dispatchGo_cons_transient (T D now : Nat) (oracle : String → Outcome)
    (model : String) (rest : List String) (st : ModelMap) (tried : Nat)
    (hav : isAvail now st model = true)
    (ht : isTransient (oracle model) = true) :
    dispatchGo T D now oracle (model :: rest) st tried
      = dispatchGo T D now oracle rest
          (_mark_model_failed T D now model (_is_model_available now model st).snd)
          (tried + 1) := by
  cases ho : oracle model with
  | exc => simp [dispatchGo, avail_fst, hav, ho]
  | http status content =>
    rw [ho] at ht
    simp only [isTransient, decide_eq_true_eq] at ht
    obtain ⟨h1, h2, h3⟩ := ht
    simp only [dispatchGo, avail_fst, hav, if_true, ho]
    rw [if_neg h1]
    have h4 : ¬(status = 401 ∨ status = 403) := by omega
    by_cases h5 : status ∈ TRANSIENT_STATUSES
    · rw [if_pos h5]
    · rw [if_neg h5, if_neg h4]

theorem dispatchGo_cons_success (T D now : Nat) (oracle : String → Outcome)
    (model : String) (rest : List String) (st : ModelMap) (tried : Nat)
    (content : String)
    (hav : isAvail now st model = true)
    (ho : oracle model = Outcome.http 200 content)
    (hc : pyStripList content.data ≠ []) :
    dispatchGo T D now oracle (model :: rest) st tried
      = (DispatchResult.success content,
         if ((_is_model_available now model st).snd model).isSome then
           updState (_is_model_available now model st).snd model ⟨0, 0⟩
         else (_is_model_available now model st).snd) := by
  simp [dispatchGo, avail_fst, hav, ho, hc]

theorem dispatchGo_cons_auth (T D now : Nat) (oracle : String → Outcome)
    (model : String) (rest : List String) (st : ModelMap) (tried : Nat)
    (status : Nat) (body : String)
    (hav : isAvail now st model = true)
    (ho : oracle model = Outcome.http status body)
    (hs : status = 401 ∨ status = 403) :
    dispatchGo T D now oracle (model :: rest) st tried
      = (DispatchResult.authError, (_is_model_available now model st).snd) := by
  have h200 : ¬(status = 200 ∧ pyStripList body.data ≠ []) := by
    rcases hs with rfl | rfl <;> simp
  have htr : status ∉ TRANSIENT_STATUSES := by
    rcases hs with rfl | rfl <;> decide
  simp only [dispatchGo, avail_fst, hav, if_true, ho]
  rw [if_neg h200, if_neg htr, if_pos hs]

theorem isAvail_congr (now : Nat) (st st' : ModelMap) (m : String)
    (h : st' m = st m) : isAvail now st' m = isAvail now st m := by
  unfold isAvail
  rw [h]

theorem dispatchGo_march (T D now : Nat) (oracle : String → Outcome)
    (l : List String) :
    ∀ (st : ModelMap) (front : List String) (mX : String)
      (restAvl : List String) (tried : Nat),
      l.Nodup →
      l.filter (fun m => isAvail now st m) = front ++ mX :: restAvl →
      (∀ m ∈ front, isTransient (oracle m) = true) →
      ∃ (restL : List String) (stM : ModelMap),
        isAvail now stM mX = true ∧
        stM mX = st mX ∧
        (∀ m ∈ front, stM m = some ⟨1, if T ≤ 1 then now + D else 0⟩) ∧
        (∀ m, m ∉ front → stM m = st m) ∧
        dispatchGo T D now oracle l st tried
          = dispatchGo T D now oracle (mX :: restL) stM (tried + front.length) := by
  induction l with
  | nil =>
    intro st front mX restAvl tried _ hfl _
    rw [List.filter_nil] at hfl
    exact absurd hfl.symm (List.append_ne_nil_of_right_ne_nil front (by simp))
  | cons hd tl ih =>
    intro st front mX restAvl tried hnd hfl hfront
    obtain ⟨hhd, hndtl⟩ := List.nodup_cons.mp hnd
    by_cases hav : isAvail now st hd = true
    · rw [List.filter_cons_of_pos hav] at hfl
      cases front with
      | nil =>
        rw [List.nil_append] at hfl
        obtain ⟨rfl, -⟩ := List.cons_eq_cons.mp hfl
        refine ⟨tl, st, hav, rfl, by simp, fun m _ => rfl, ?_⟩
        rw [List.length_nil, Nat.add_zero]
      | cons f front' =>
        rw [List.cons_append] at hfl
        obtain ⟨rfl, hfl2⟩ := List.cons_eq_cons.mp hfl
        have hstep := dispatchGo_cons_transient T D now oracle hd tl st tried
          hav (hfront hd (by simp))
        have hst2_self :
            _mark_model_failed T D now hd (_is_model_available now hd st).snd hd
              = some ⟨1, if T ≤ 1 then now + D else 0⟩ :=
          mark_avail_self T D now hd st hav
        have hst2_other : ∀ m, m ≠ hd →
            _mark_model_failed T D now hd (_is_model_available now hd st).snd m
              = st m := by
          intro m hm
          rw [mark_other T D now hd _ m hm, avail_snd_other now hd st m hm]
        have hfl3 : tl.filter
            (fun m => isAvail now
              (_mark_model_failed T D now hd (_is_model_available now hd st).snd) m)
              = front' ++ mX :: restAvl := by
          rw [← hfl2]
          apply List.filter_congr
          intro m hm
          exact isAvail_congr now st _ m
            (hst2_other m (fun h => hhd (h ▸ hm)))
        have hfront' : ∀ m ∈ front', isTransient (oracle m) = true :=
          fun m hm => hfront m (by simp [hm])
        obtain ⟨restL, stM, hA, hX, hF, hO, heq⟩ :=
          ih _ front' mX restAvl (tried + 1) hndtl hfl3 hfront'
        have hmem_tl : ∀ m, m ∈ front' ++ mX :: restAvl → m ∈ tl := by
          intro m hm
          have : m ∈ tl.filter (fun m => isAvail now st m) := by
            rw [hfl2]; exact hm
          exact (List.mem_filter.mp this).1
        have hmXhd : mX ≠ hd :=
          fun h => hhd (h ▸ hmem_tl mX (by simp))
        have hhd_front' : hd ∉ front' :=
          fun h => hhd (hmem_tl hd (by simp [h]))
        refine ⟨restL, stM, hA, ?_, ?_, ?_, ?_⟩
        · rw [hX, hst2_other mX hmXhd]
        · intro m hm
          rcases List.mem_cons.mp hm with rfl | hm'
          · rw [hO m hhd_front', hst2_self]
          · exact hF m hm'
        · intro m hm
          have h1 : m ∉ front' := fun h => hm (by simp [h])
          have h2 : m ≠ hd := fun h => hm (by simp [h])
          rw [hO m h1, hst2_other m h2]
        · rw [hstep, heq, List.length_cons]
          have : tried + 1 + front'.length = tried + (front'.length + 1) := by omega
          rw [this]
    · have hav' : isAvail now st hd = false := by
        cases h : isAvail now st hd
        · rfl
        · exact absurd h hav
      rw [List.filter_cons_of_neg (by simp [hav'])] at hfl
      have hstep := dispatchGo_cons_unavail T D now oracle hd tl st tried hav'
      obtain ⟨restL, stM, hA, hX, hF, hO, heq⟩ :=
        ih st front mX restAvl tried hndtl hfl hfront
      exact ⟨restL, stM, hA, hX, hF, hO, hstep.trans heq⟩

theorem failCount_congr (st st' : ModelMap) (m : String)
    (h : st' m = st m) : failCount st' m = failCount st m := by
  unfold failCount
  rw [h]

theorem success_state_failCount (now : Nat) (m : String) (stM : ModelMap) :
    failCount
      (if ((_is_model_available now m stM).snd m).isSome then
        updState (_is_model_available now m stM).snd m ⟨0, 0⟩
      else (_is_model_available now m stM).snd) m = 0 := by
  cases ho : (_is_model_available now m stM).snd m with
  | none => simp [ho, failCount]
  | some s => simp [ho, failCount, updState_self]

theorem success_state_other (now : Nat) (m : String) (stM : ModelMap)
    (m' : String) (h : m' ≠ m) :
    (if ((_is_model_available now m stM).snd m).isSome then
      updState (_is_model_available now m stM).snd m ⟨0, 0⟩
     else (_is_model_available now m stM).snd) m' = stM m' := by
  by_cases hs : ((_is_model_available now m stM).snd m).isSome <;>
    simp [hs, updState_other _ _ _ _ h, avail_snd_other now m stM m' h]

/-- Claim C2: for every duplicate-free backend priority list, if the first
`n` available candidates each produce a transient outcome (HTTP
404/410/429/5xx, another non-auth status, a transport exception, or a 200
response with empty stripped content) and the next available candidate
produces a 200 response with non-empty content, then one dispatch run
returns that content, records exactly one failure against each of the
first `n` candidates, records zero failures against the succeeding
candidate (its counter reads 0), and touches no other backend's state. -/
theorem dispatch_transient_then_success (T D now : Nat)
    (oracle : String → Outcome) (l : List String) (st : ModelMap)
    (front : List String) (mS : String) (restAvl : List String) (c : String)
    (hnd : l.Nodup)
    (hfl : l.filter (fun m => isAvail now st m) = front ++ mS :: restAvl)
    (hfront : ∀ m ∈ front, isTransient (oracle m) = true)
    (hS : oracle mS = Outcome.http 200 c)
    (hc : pyStripList c.data ≠ []) :
    (_openrouter_chat_sync T D now oracle l st).fst = DispatchResult.success c ∧
    (∀ m ∈ front, failCount (_openrouter_chat_sync T D now oracle l st).snd m = 1) ∧
    failCount (_openrouter_chat_sync T D now oracle l st).snd mS = 0 ∧
    (∀ m, m ∉ front → m ≠ mS →
      (_openrouter_chat_sync T D now oracle l st).snd m = st m) := by
  obtain ⟨restL, stM, hA, hX, hF, hO, heq⟩ :=
    dispatchGo_march T D now oracle l st front mS restAvl 0 hnd hfl hfront
  have hsucc := dispatchGo_cons_success T D now oracle mS restL stM
    (0 + front.length) c hA hS hc
  have hfinal : _openrouter_chat_sync T D now oracle l st
      = (DispatchResult.success c,
         if ((_is_model_available now mS stM).snd mS).isSome then
           updState (_is_model_available now mS stM).snd mS ⟨0, 0⟩
         else (_is_model_available now mS stM).snd) := by
    unfold _openrouter_chat_sync
    rw [heq, hsucc]
  have hndf : (front ++ mS :: restAvl).Nodup := by
    rw [← hfl]; exact List.Nodup.filter _ hnd
  have hmSfront : mS ∉ front := by
    intro h
    obtain ⟨-, -, hdisj⟩ := List.nodup_append.mp hndf
    exact hdisj h (by simp)
  rw [hfinal]
  dsimp only
  refine ⟨rfl, ?_, success_state_failCount now mS stM, ?_⟩
  · intro m hm
    have hne : m ≠ mS := fun h => hmSfront (h ▸ hm)
    rw [failCount_congr stM _ m (success_state_other now mS stM m hne)]
    unfold failCount
    rw [hF m hm]
  · intro m hm hne
    rw [success_state_other now mS stM m hne, hO m hm]

/-- Claim C4: if the first available candidates all produce transient
outcomes and the next available candidate returns HTTP 401 or 403, the
dispatch run aborts with the fatal auth error: the result is the auth
error (never a success, whatever the oracle assigns to later candidates),
no failure is recorded against the auth candidate (its counter reads 0),
and every backend outside the attempted prefix keeps its exact prior
state — no subsequent candidate is attempted. -/
theorem auth_error_aborts_dispatch (T D now : Nat)
    (oracle : String → Outcome) (l : List String) (st : ModelMap)
    (front : List String) (mA : String) (restAvl : List String)
    (status : Nat) (body : String)
    (hnd : l.Nodup)
    (hfl : l.filter (fun m => isAvail now st m) = front ++ mA :: restAvl)
    (hfront : ∀ m ∈ front, isTransient (oracle m) = true)
    (hA : oracle mA = Outcome.http status body)
    (hs : status = 401 ∨ status = 403) :
    (_openrouter_chat_sync T D now oracle l st).fst = DispatchResult.authError ∧
    failCount (_openrouter_chat_sync T D now oracle l st).snd mA = 0 ∧
    (∀ m, m ∉ front → m ≠ mA →
      (_openrouter_chat_sync T D now oracle l st).snd m = st m) := by
  obtain ⟨restL, stM, hAv, hX, hF, hO, heq⟩ :=
    dispatchGo_march T D now oracle l st front mA restAvl 0 hnd hfl hfront
  have habort := dispatchGo_cons_auth T D now oracle mA restL stM
    (0 + front.length) status body hAv hA hs
  have hfinal : _openrouter_chat_sync T D now oracle l st
      = (DispatchResult.authError, (_is_model_available now mA stM).snd) := by
    unfold _openrouter_chat_sync
    rw [heq, habort]
  rw [hfinal]
  dsimp only
  refine ⟨rfl, avail_snd_failCount now mA stM hAv, ?_⟩
  · intro m hm hne
    rw [avail_snd_other now mA stM m hne, hO m hm]

/-- Claim C1: in the three-backend scenario (backends #1 and #2 rate-limited,
backend #3 replying "hello"), one dispatch run returns "hello" and leaves
backends #1 and #2 each with failure count 1 — but, refuting the claim's
second half, repeating the same scenario `T = MODEL_FAILURE_THRESHOLD = 2`
times does NOT place backend #1 into cooldown: after the 2nd run its
failure count is still 1 and the availability check still answers true,
because `_is_model_available` zeroes the counter whenever
`now ≥ skip_until` and `skip_until` is 0 for a never-cooled backend. -/
theorem dispatch_repeat_no_cooldown :
    (_openrouter_chat_sync MODEL_FAILURE_THRESHOLD MODEL_COOLDOWN_SECONDS 1000
        scenarioOracle scenarioModels emptyModelMap).fst
      = DispatchResult.success ("hello") ∧
    failCount scenState1 ("m1") = 1 ∧
    failCount scenState1 ("m2") = 1 ∧
    (_openrouter_chat_sync MODEL_FAILURE_THRESHOLD MODEL_COOLDOWN_SECONDS 1001
        scenarioOracle scenarioModels scenState1).fst
      = DispatchResult.success ("hello") ∧
    failCount scenState2 ("m1") = 1 ∧
    (_is_model_available 1002 ("m1") scenState2).fst = true := by
  decide

/-- Claim C3: whenever a `_mark_model_failed` call at time `t0` brings a
backend's recorded failure count to the threshold `T` or beyond, the
availability check answers false at every time strictly before `t0 + D`,
and at every time from `t0 + D` on it answers true and leaves the failure
counter at 0 (the check itself performs the reset). -/
theorem cooldown_window (T D t0 : Nat) (m : String) (st : ModelMap)
    (h : T ≤ failCount (_mark_model_failed T D t0 m st) m) :
    (∀ t, t < t0 + D →
      (_is_model_available t m (_mark_model_failed T D t0 m st)).fst = false) ∧
    (∀ t, t0 + D ≤ t →
      (_is_model_available t m (_mark_model_failed T D t0 m st)).fst = true ∧
      failCount (_is_model_available t m (_mark_model_failed T D t0 m st)).snd m
        = 0) := by
  have hfc : failCount (_mark_model_failed T D t0 m st) m
      = ((st m).getD ⟨0, 0⟩).fails + 1 := by
    unfold _mark_model_failed failCount
    by_cases hT : T ≤ ((st m).getD ⟨0, 0⟩).fails + 1 <;> simp [hT, updState]
  have hT : T ≤ ((st m).getD ⟨0, 0⟩).fails + 1 := by omega
  have hm : _mark_model_failed T D t0 m st m
      = some ⟨((st m).getD ⟨0, 0⟩).fails + 1, t0 + D⟩ := by
    unfold _mark_model_failed
    simp [hT, updState_self]
  constructor
  · intro t ht
    have hlt : ¬(t0 + D ≤ t) := by omega
    unfold _is_model_available
    rw [hm]
    simp [hlt]
  · intro t ht
    unfold _is_model_available
    rw [hm]
    simp [ht, failCount, updState_self]

theorem cooldown_window_witness :
    (_is_model_available 130 ("m1") (_mark_model_failed 2 60 100 ("m1") wSt)).fst
      = false ∧
    (_is_model_available 160 ("m1") (_mark_model_failed 2 60 100 ("m1") wSt)).fst
      = true ∧
    failCount
      (_is_model_available 160 ("m1") (_mark_model_failed 2 60 100 ("m1") wSt)).snd
      ("m1") = 0 := by
  have h := cooldown_window 2 60 100 ("m1") wSt (by decide)
  exact ⟨h.1 130 (by decide), (h.2 160 (by decide)).1, (h.2 160 (by decide)).2⟩

theorem dispatch_transient_then_success_witness :
    (_openrouter_chat_sync 2 60 0
        (fun m => if m = "b" then Outcome.http 200 ("hi") else Outcome.http 429 (""))
        (["a", "b", "c"]) emptyModelMap).fst = DispatchResult.success ("hi") ∧
    failCount (_openrouter_chat_sync 2 60 0
        (fun m => if m = "b" then Outcome.http 200 ("hi") else Outcome.http 429 (""))
        (["a", "b", "c"]) emptyModelMap).snd ("a") = 1 ∧
    failCount (_openrouter_chat_sync 2 60 0
        (fun m => if m = "b" then Outcome.http 200 ("hi") else Outcome.http 429 (""))
        (["a", "b", "c"]) emptyModelMap).snd ("b") = 0 ∧
    (_openrouter_chat_sync 2 60 0
        (fun m => if m = "b" then Outcome.http 200 ("hi") else Outcome.http 429 (""))
        (["a", "b", "c"]) emptyModelMap).snd ("c") = emptyModelMap ("c") := by
  have h := dispatch_transient_then_success 2 60 0
    (fun m => if m = "b" then Outcome.http 200 ("hi") else Outcome.http 429 (""))
    (["a", "b", "c"]) emptyModelMap (["a"]) ("b") (["c"]) ("hi")
    (by decide) (by decide) (by decide) (by decide) (by decide)
  exact ⟨h.1, h.2.1 ("a") (by decide), h.2.2.1,
    h.2.2.2 ("c") (by decide) (by decide)⟩

theorem auth_error_aborts_dispatch_witness :
    (_openrouter_chat_sync 2 60 0
        (fun m => if m = "b" then Outcome.http 401 ("no")
                  else Outcome.http 200 ("yes"))
        (["a", "b", "c"]) wAuthSt).fst = DispatchResult.authError ∧
    failCount (_openrouter_chat_sync 2 60 0
        (fun m => if m = "b" then Outcome.http 401 ("no")
                  else Outcome.http 200 ("yes"))
        (["a", "b", "c"]) wAuthSt).snd ("b") = 0 ∧
    (_openrouter_chat_sync 2 60 0
        (fun m => if m = "b" then Outcome.http 401 ("no")
                  else Outcome.http 200 ("yes"))
        (["a", "b", "c"]) wAuthSt).snd ("c") = wAuthSt ("c") := by
  have h := auth_error_aborts_dispatch 2 60 0
    (fun m => if m = "b" then Outcome.http 401 ("no") else Outcome.http 200 ("yes"))
    (["a", "b", "c"]) wAuthSt ([]) ("b") (["c"]) 401 ("no")
    (by decide) (by decide) (by decide) (by decide) (by decide)
  exact ⟨h.1, h.2.1, h.2.2 ("c") (by decide) (by decide)⟩

/-- Claim C6, counterexample: when the remote listing contains the default
id "openrouter/free" twice among its free entries, the refreshed catalog
contains it twice (Python's `list.remove` drops only the first occurrence),
refuting "appears in it exactly once ... regardless of ... how many times
the remote listing included it". -/
theorem fetch_models_duplicate_default :
    fetch_free_models (some (200, [dupEntry, dupEntry]))
      = [OPENROUTER_DEFAULT, OPENROUTER_DEFAULT] ∧
    (fetch_free_models (some (200, [dupEntry, dupEntry]))).count
      OPENROUTER_DEFAULT ≠ 1 := by
  decide

/-- Claim C6 (amended): the catalog returned by `fetch_free_models` is
always non-empty with the default id "openrouter/free" at position 0; on a
transport failure or a non-200 status it is exactly the fixed fallback list
of the default plus two named alternates; and whenever the remote listing's
free entries mention the default id at most once, the default appears in
the result exactly once. -/
theorem fetch_free_models_spec :
    (∀ response, fetch_free_models response ≠ [] ∧
      (fetch_free_models response).head? = some OPENROUTER_DEFAULT) ∧
    (∀ status data, status ≠ 200 →
      fetch_free_models (some (status, data)) = FALLBACK_MODELS) ∧
    (fetch_free_models none = FALLBACK_MODELS) ∧
    (∀ data : List ModelEntry,
      (freeIds data).count OPENROUTER_DEFAULT ≤ 1 →
      (fetch_free_models (some (200, data))).count OPENROUTER_DEFAULT = 1) := by
  refine ⟨?_, ?_, rfl, ?_⟩
  · intro response
    match response with
    | none => exact ⟨by decide, by decide⟩
    | some (status, data) =>
      by_cases h200 : status = 200
      · subst h200
        by_cases hmem : OPENROUTER_DEFAULT ∈ freeIds data <;>
          simp [fetch_free_models, hmem]
      · simp [fetch_free_models, h200, FALLBACK_MODELS, OPENROUTER_DEFAULT]
  · intro status data h
    simp [fetch_free_models, h]
  · intro data hcount
    by_cases hmem : OPENROUTER_DEFAULT ∈ freeIds data
    · have hpos : 0 < (freeIds data).count OPENROUTER_DEFAULT :=
        List.count_pos_iff.mpr hmem
      have hres : fetch_free_models (some (200, data))
          = OPENROUTER_DEFAULT :: (freeIds data).erase OPENROUTER_DEFAULT := by
        simp [fetch_free_models, hmem]
      rw [hres, List.count_cons_self, List.count_erase_self]
      omega
    · have hzero : (freeIds data).count OPENROUTER_DEFAULT = 0 :=
        List.count_eq_zero.mpr hmem
      have hres : fetch_free_models (some (200, data))
          = OPENROUTER_DEFAULT :: freeIds data := by
        simp [fetch_free_models, hmem]
      rw [hres, List.count_cons_self, hzero]

theorem fetch_free_models_spec_witness :
    fetch_free_models none ≠ [] ∧
    (fetch_free_models none).head? = some OPENROUTER_DEFAULT ∧
    fetch_free_models (some (500, [])) = FALLBACK_MODELS ∧
    (fetch_free_models
        (some (200, [dupEntry, ⟨"other", some ("0"), some ("1")⟩]))).count
      OPENROUTER_DEFAULT = 1 := by
  refine ⟨(fetch_free_models_spec.1 none).1, (fetch_free_models_spec.1 none).2,
    fetch_free_models_spec.2.1 500 [] (by decide),
    fetch_free_models_spec.2.2.2 ([dupEntry, ⟨"other", some ("0"), some ("1")⟩])
      (by decide)⟩

theorem appendAndTrim_length (h : List ChatMessage) (m : ChatMessage) :
    (appendAndTrim h m).length ≤ HISTORY_PAIRS_TO_KEEP * 2 := by
  simp only [appendAndTrim, _trim_history]
  by_cases hl : (h ++ [m]).length ≤ HISTORY_PAIRS_TO_KEEP * 2
  · rw [if_pos hl]
    exact hl
  · rw [if_neg hl, List.length_drop]
    omega

theorem foldl_appendAndTrim (l : List ChatMessage) :
    ∀ h : List ChatMessage, h.length ≤ HISTORY_PAIRS_TO_KEEP * 2 →
      List.foldl appendAndTrim h l
        = (h ++ l).drop (h.length + l.length - HISTORY_PAIRS_TO_KEEP * 2) := by
  induction l with
  | nil =>
    intro h hl
    have hz : h.length + ([] : List ChatMessage).length - HISTORY_PAIRS_TO_KEEP * 2
        = 0 := by
      simp only [List.length_nil]
      omega
    rw [List.foldl_nil, hz, List.append_nil, List.drop_zero]
  | cons m t ih =>
    intro h hl
    rw [List.foldl_cons]
    by_cases hc : h.length + 1 ≤ HISTORY_PAIRS_TO_KEEP * 2
    · have hstep : appendAndTrim h m = h ++ [m] := by
        simp only [appendAndTrim, _trim_history]
        rw [if_pos (by simp; omega)]
      rw [hstep, ih (h ++ [m]) (by simp; omega)]
      have hlen : (h ++ [m]).length = h.length + 1 := by simp
      rw [hlen, List.append_assoc, List.singleton_append]
      have hidx : h.length + 1 + t.length = h.length + (m :: t).length := by
        simp
        omega
      rw [hidx]
    · have hle : h.length = HISTORY_PAIRS_TO_KEEP * 2 := by omega
      have hstep : appendAndTrim h m = (h ++ [m]).drop 1 := by
        simp only [appendAndTrim, _trim_history]
        rw [if_neg (by simp; omega)]
        congr 1
        simp
        omega
      have hlen2 : ((h ++ [m]).drop 1).length ≤ HISTORY_PAIRS_TO_KEEP * 2 := by
        rw [List.length_drop]
        simp
        omega
      rw [hstep, ih _ hlen2]
      have hlen3 : ((h ++ [m]).drop 1).length = HISTORY_PAIRS_TO_KEEP * 2 := by
        rw [List.length_drop]
        simp
        omega
      rw [hlen3]
      have hidx : HISTORY_PAIRS_TO_KEEP * 2 + t.length - HISTORY_PAIRS_TO_KEEP * 2
          = t.length := by omega
      rw [hidx, ← List.drop_append_of_le_length (by simp), List.drop_drop]
      have hidx2 : h.length + (m :: t).length - HISTORY_PAIRS_TO_KEEP * 2
          = 1 + t.length := by
        simp
        omega
      rw [hidx2, List.append_assoc, List.singleton_append]

/-- Claim C7: the stored history length never exceeds `2K`
(`K = HISTORY_PAIRS_TO_KEEP`) after any sequence of append-then-trim steps,
and appending `2K + 1` messages to an empty history leaves exactly the most
recent `2K`, dropping the oldest first with the survivors' order
preserved. -/
theorem history_trim_spec :
    (∀ (h : List ChatMessage) (m : ChatMessage),
      (appendAndTrim h m).length ≤ 2 * HISTORY_PAIRS_TO_KEEP) ∧
    (∀ (h msgs : List ChatMessage), msgs ≠ [] →
      (msgs.foldl appendAndTrim h).length ≤ 2 * HISTORY_PAIRS_TO_KEEP) ∧
    (∀ msgs : List ChatMessage, msgs.length = 2 * HISTORY_PAIRS_TO_KEEP + 1 →
      List.foldl appendAndTrim [] msgs = msgs.drop 1) := by
  refine ⟨?_, ?_, ?_⟩
  · intro h m
    have := appendAndTrim_length h m
    omega
  · intro h msgs hne
    rcases List.eq_nil_or_concat' msgs with rfl | ⟨L, b, rfl⟩
    · exact absurd rfl hne
    · rw [List.foldl_append]
      simp only [List.foldl_cons, List.foldl_nil]
      have := appendAndTrim_length (List.foldl appendAndTrim h L) b
      omega
  · intro msgs hlen
    rw [foldl_appendAndTrim msgs [] (by simp)]
    simp only [List.nil_append, List.length_nil, Nat.zero_add]
    congr 1
    omega

theorem history_trim_spec_witness :
    (List.foldl appendAndTrim [] wMsgs).length ≤ 2 * HISTORY_PAIRS_TO_KEEP ∧
    List.foldl appendAndTrim [] wMsgs = wMsgs.drop 1 := by
  exact ⟨history_trim_spec.2.1 [] wMsgs (by decide),
    history_trim_spec.2.2 wMsgs (by decide)⟩

/-- Claim C10: the risk rating is total over backend outcomes and always
lands in [1,5]: a raised dispatch yields the default 1; a reply whose
stripped text is empty, starts with a non-digit, or starts with the digit 0
or a digit ≥ 6 yields 1; a reply whose stripped text starts with a digit in
1..5 yields that digit's value. -/
theorem stress_level_total :
    (∀ o : Except String String,
      1 ≤ get_stress_level o ∧ get_stress_level o ≤ 5) ∧
    (∀ e : String, get_stress_level (Except.error e) = 1) ∧
    (∀ txt : String,
      (pyStripList txt.data = [] → get_stress_level (Except.ok txt) = 1) ∧
      (∀ c cs, pyStripList txt.data = c :: cs →
        (c.isDigit = false → get_stress_level (Except.ok txt) = 1) ∧
        (c.isDigit = true → 1 ≤ c.toNat - 48 → c.toNat - 48 ≤ 5 →
          get_stress_level (Except.ok txt) = c.toNat - 48) ∧
        (c.isDigit = true → (c.toNat - 48 = 0 ∨ 6 ≤ c.toNat - 48) →
          get_stress_level (Except.ok txt) = 1))) := by
  refine ⟨?_, fun e => rfl, ?_⟩
  · intro o
    match o with
    | Except.error e => exact ⟨le_refl 1, by simp [get_stress_level]⟩
    | Except.ok txt =>
      simp only [get_stress_level]
      cases hm : pyStripList txt.data with
      | nil => exact ⟨le_refl 1, by decide⟩
      | cons c cs =>
        by_cases hd : c.isDigit
        · simp only [hd, if_true]
          split
          · next hr => omega
          · exact ⟨le_refl 1, by decide⟩
        · simp only [hd, if_false]
          exact ⟨le_refl 1, by simp⟩
  · intro txt
    refine ⟨?_, ?_⟩
    · intro hm
      simp [get_stress_level, hm]
    · intro c cs hm
      refine ⟨?_, ?_, ?_⟩
      · intro hd
        simp [get_stress_level, hm, hd]
      · intro hd h1 h5
        simp only [get_stress_level, hm, hd, if_true]
        rw [if_pos ⟨h1, h5⟩]
      · intro hd hout
        simp only [get_stress_level, hm, hd, if_true]
        rw [if_neg (by omega)]

theorem stress_level_total_witness :
    1 ≤ get_stress_level (Except.ok ("3")) ∧
    get_stress_level (Except.ok ("3")) = 3 ∧
    get_stress_level (Except.ok ("7")) = 1 ∧
    get_stress_level (Except.error ("x")) = 1 := by
  refine ⟨(stress_level_total.1 (Except.ok ("3"))).1, ?_, ?_,
    stress_level_total.2.1 ("x")⟩
  · have h := ((stress_level_total.2.2 ("3")).2 '3' [] (by decide)).2.1
      (by decide) (by decide) (by decide)
    rw [h]
    decide
  · exact ((stress_level_total.2.2 ("7")).2 '7' [] (by decide)).2.2
      (by decide) (by decide)

/-- Claim C5: the crisis detector returns true exactly when some phrase of
the fixed keyword list is a substring of the lower-cased input (in
particular "I want to DIE" is flagged), and a flagged message makes the
handler emit just the fixed escalation reply (with the escalation action
attached), issue no backend dispatch, and leave every user's stored
history unchanged. -/
theorem crisis_detection_spec :
    (∀ text : String, is_crisis text = true ↔
      ∃ kw ∈ CRISIS_KEYWORDS, List.IsInfix kw.data (pyLowerList text.data)) ∧
    is_crisis ("I want to DIE") = true ∧
    (∀ (sessions : Sessions) (user : Nat) (text : String)
      (ratingCall replyCall : Except String String),
      is_crisis text = true →
      (handle_message true sessions user text ratingCall replyCall).replies
        = [⟨CRISIS_REPLY, true⟩] ∧
      (handle_message true sessions user text ratingCall replyCall).dispatchRuns
        = 0 ∧
      (∀ u, u ≠ user →
        (handle_message true sessions user text ratingCall replyCall).sessions u
          = sessions u) ∧
      ((handle_message true sessions user text ratingCall replyCall).sessions
          user).getD []
        = (sessions user).getD []) := by
  refine ⟨?_, by decide, ?_⟩
  · intro text
    simp [is_crisis, List.any_eq_true]
  · intro sessions user text ratingCall replyCall hcr
    refine ⟨?_, ?_, ?_, ?_⟩
    · simp [handle_message, hcr]
    · simp [handle_message, hcr]
    · intro u hu
      simp only [handle_message, hcr, if_true, Bool.true_eq_false, if_false]
      split
      · simp [setSession, hu]
      · rfl
    · simp only [handle_message, hcr, if_true, Bool.true_eq_false, if_false]
      split
      · next hn =>
        simp [setSession, Option.isNone_iff_eq_none.mp hn]
      · rfl

theorem crisis_detection_spec_witness :
    (handle_message true (fun _ => none) 7 ("I want to DIE")
        (Except.ok ("1")) (Except.ok ("ok"))).replies = [⟨CRISIS_REPLY, true⟩] ∧
    (handle_message true (fun _ => none) 7 ("I want to DIE")
        (Except.ok ("1")) (Except.ok ("ok"))).dispatchRuns = 0 ∧
    ((handle_message true (fun _ => none) 7 ("I want to DIE")
        (Except.ok ("1")) (Except.ok ("ok"))).sessions 7).getD []
      = (((fun _ => none) : Sessions) 7).getD [] := by
  have h := crisis_detection_spec.2.2 (fun _ => none) 7 ("I want to DIE")
    (Except.ok ("1")) (Except.ok ("ok")) (by decide)
  exact ⟨h.1, h.2.1, h.2.2.2⟩

/-- Claim C8: when the risk-rating dispatch raises (e.g. exhaustion) while
the reply dispatch succeeds, the user still receives the generated reply
(the stripped text, or the safe default when it strips to empty); the risk
level degrades to the default 1, which is below the escalation threshold 3,
so no escalation action is attached. -/
theorem rating_failure_degrades (sessions : Sessions) (user : Nat)
    (text e r : String) (hcr : is_crisis text = false) :
    (handle_message true sessions user text (Except.error e)
        (Except.ok r)).replies
      = [⟨if pyStripList r.data = [] then FALLBACK_REPLY else pyStrip r,
          false⟩] ∧
    get_stress_level (Except.error e) = 1 ∧
    ¬ 3 ≤ get_stress_level (Except.error e) := by
  refine ⟨?_, rfl, by simp [get_stress_level]⟩
  simp [handle_message, hcr, get_stress_level]

theorem rating_failure_degrades_witness :
    (handle_message true (fun _ => none) 1 ("hello there")
        (Except.error ("boom")) (Except.ok (" hi "))).replies
      = [⟨"hi", false⟩] := by
  have h := rating_failure_degrades (fun _ => none) 1 ("hello there")
    ("boom") (" hi ") (by decide)
  rw [h.1]
  decide

/-- Claim C9: when the reply dispatch raises after the crisis check (any
exception text), the handler catches it, removes the user's session
entirely, leaves every other user's session untouched, and emits only the
fixed generic recoverable-error reply — a constant independent of the
raised error's text, so no raw error text is surfaced. -/
theorem unexpected_failure_clears_session (sessions : Sessions) (user : Nat)
    (text e : String) (rating : Except String String)
    (hcr : is_crisis text = false) :
    (handle_message true sessions user text rating
        (Except.error e)).sessions user = none ∧
    (∀ u, u ≠ user →
      (handle_message true sessions user text rating
          (Except.error e)).sessions u = sessions u) ∧
    (handle_message true sessions user text rating (Except.error e)).replies
      = [⟨GENERIC_ERROR_REPLY, false⟩] := by
  refine ⟨?_, ?_, ?_⟩
  · simp [handle_message, hcr, setSession]
  · intro u hu
    simp [handle_message, hcr, setSession, hu, ite_apply]
    split <;> simp [setSession, hu]
  · simp [handle_message, hcr]

theorem unexpected_failure_clears_session_witness :
    (handle_message true (fun _ => none) 1 ("hello") (Except.ok ("4"))
        (Except.error ("boom"))).sessions 1 = none ∧
    (handle_message true (fun _ => none) 1 ("hello") (Except.ok ("4"))
        (Except.error ("boom"))).replies = [⟨GENERIC_ERROR_REPLY, false⟩] := by
  have h := unexpected_failure_clears_session (fun _ => none) 1 ("hello")
    ("boom") (Except.ok ("4")) (by decide)
  exact ⟨h.1, h.2.2⟩
